import Mathlib

/-!
Verification development for the Smart-SDLC static-analysis pipeline.

The pipeline (src/doc_generator.py, src/code_review.py, src/bug_predictor.py,
src/report_generator.py) parses Python source with the `ast` module and walks
the resulting tree.  We embed the fragment of the Python AST that the pipeline
inspects, and each analysis operation as a Lean function over that embedding.

Modelling conventions:
- `ast` nodes that the pipeline never matches on are out of the embedded
  fragment; the constructors below are exactly the node shapes the code
  distinguishes, with line numbers kept on the nodes whose line numbers are
  written into findings (While, Call, BinOp).
- File I/O and parsing by the Python runtime are external to the pipeline;
  a read-and-parse result is an `Except` value (error string on failure),
  matching the `try/except` structure of the code.
- `ast.unparse` (the serializer) is the standard library; report-level
  functions take it as an explicit function argument `unparse`.
- A file written to disk is identified with the string content written to it.
-/

namespace SmartSDLC

/-- Binary operators; the bug predictor only distinguishes division
(`ast.Div`) from everything else. -/
inductive BinOp where
  | div
  | add
  | sub
  | mult
  deriving Repr, DecidableEq

/-- Embedded fragment of Python expressions (`ast` expression nodes matched by
the pipeline): numeric literals (`ast.Num`), string literals (`ast.Str`),
`True`/`False`/`None` (`ast.NameConstant`), list literals (`ast.List`),
identifiers (`ast.Name`), binary operations (`ast.BinOp`) and calls
(`ast.Call`).  `binOp` and `call` carry their source line number. -/
inductive PyExpr where
  | num (n : Int)
  | str (s : String)
  | boolConst (b : Bool)
  | noneConst
  | listLit (elts : List PyExpr)
  | name (id : String)
  | binOp (lineno : Nat) (op : BinOp) (left : PyExpr) (right : PyExpr)
  | call (lineno : Nat) (func : PyExpr) (args : List PyExpr)

/-- Embedded fragment of Python statements: function and class definitions,
expression statements, `return`, `while` (with its line number), `if`, `for`,
`try`, single-target assignment, `break` and `pass`. -/
inductive PyStmt where
  | functionDef (name : String) (args : List String) (body : List PyStmt)
  | classDef (name : String) (body : List PyStmt)
  | exprStmt (e : PyExpr)
  | ret (value : Option PyExpr)
  | whileStmt (lineno : Nat) (test : PyExpr) (body : List PyStmt)
  | ifStmt (test : PyExpr) (body : List PyStmt) (orelse : List PyStmt)
  | forStmt (target : String) (iter : PyExpr) (body : List PyStmt)
  | tryStmt (body : List PyStmt) (handler : List PyStmt)
  | assign (target : String) (value : PyExpr)
  | breakStmt
  | passStmt

/-- A module (`ast.Module`) is its list of top-level statements. -/
abbrev Module := List PyStmt

mutual

/-- All expression nodes of the subtree rooted at an expression, the root
included (the expression part of `ast.walk`; `ast.walk` is breadth-first,
we enumerate depth-first — every analysis below is insensitive to the
enumeration order). -/
def walkExpr : PyExpr → List PyExpr
  | .num n => [.num n]
  | .str s => [.str s]
  | .boolConst b => [.boolConst b]
  | .noneConst => [.noneConst]
  | .listLit elts => .listLit elts :: walkExprList elts
  | .name id => [.name id]
  | .binOp ln op l r => .binOp ln op l r :: (walkExpr l ++ walkExpr r)
  | .call ln f args => .call ln f args :: (walkExpr f ++ walkExprList args)

/-- All expression nodes of a list of expression subtrees. -/
def walkExprList : List PyExpr → List PyExpr
  | [] => []
  | e :: es => walkExpr e ++ walkExprList es

end

/-- The direct expression children of a statement node. -/
def stmtExprs : PyStmt → List PyExpr
  | .exprStmt e => [e]
  | .ret (some e) => [e]
  | .whileStmt _ t _ => [t]
  | .ifStmt t _ _ => [t]
  | .forStmt _ it _ => [it]
  | .assign _ v => [v]
  | _ => []

/-- The direct statement children of a statement node. -/
def stmtChildren : PyStmt → List PyStmt
  | .functionDef _ _ body => body
  | .classDef _ body => body
  | .whileStmt _ _ body => body
  | .ifStmt _ body orelse => body ++ orelse
  | .forStmt _ _ body => body
  | .tryStmt body handler => body ++ handler
  | _ => []

mutual

/-- All statement nodes of the subtree rooted at a statement, the root
included. -/
def walkStmt : PyStmt → List PyStmt
  | .functionDef n a body => .functionDef n a body :: walkStmts body
  | .classDef n body => .classDef n body :: walkStmts body
  | .exprStmt e => [.exprStmt e]
  | .ret v => [.ret v]
  | .whileStmt ln t body => .whileStmt ln t body :: walkStmts body
  | .ifStmt t body orelse => .ifStmt t body orelse :: (walkStmts body ++ walkStmts orelse)
  | .forStmt tg it body => .forStmt tg it body :: walkStmts body
  | .tryStmt body handler => .tryStmt body handler :: (walkStmts body ++ walkStmts handler)
  | .assign t v => [.assign t v]
  | .breakStmt => [.breakStmt]
  | .passStmt => [.passStmt]

/-- All statement nodes of a list of statement subtrees. -/
def walkStmts : List PyStmt → List PyStmt
  | [] => []
  | s :: ss => walkStmt s ++ walkStmts ss

end

/-- All expression nodes anywhere below a list of statements (what `ast.walk`
yields as expression nodes when started on a tree containing them). -/
def allExprs (body : List PyStmt) : List PyExpr :=
  (walkStmts body).flatMap fun s => walkExprList (stmtExprs s)

/-- All identifiers (`ast.Name` nodes) appearing anywhere below a list of
statements — the `used_vars` set of `review_code`. -/
def usedNames (body : List PyStmt) : List String :=
  (allExprs body).filterMap fun e =>
    match e with
    | .name id => some id
    | _ => none

/-! ### Docstring Synthesizer (src/doc_generator.py) -/

/-- Function `ast.get_docstring` on the embedded fragment: the docstring of a body is
the string when the first body statement is an expression statement whose
value is a string literal, and absent otherwise. -/
def get_docstring : List PyStmt → Option String
  | .exprStmt (.str s) :: _ => some s
  | _ => none

/-- The literal-kind classification applied to each returned expression in
`generate_function_docstring`: `ast.Num` → "number", `ast.Str` → "str",
`ast.NameConstant` with value `True`/`False` → "bool", `ast.List` → "list";
anything else contributes no category. -/
def returnCategory : PyExpr → Option String
  | .num _ => some "number"
  | .str _ => some "str"
  | .boolConst _ => some "bool"
  | .listLit _ => some "list"
  | _ => none

/-- Insertion into a duplicate-free list, keeping first-occurrence order.
The source accumulates categories in a Python `set` (unordered); this is the
deterministic first-seen rendering of that set. -/
def addUnique (l : List String) (s : String) : List String :=
  if s ∈ l then l else l ++ [s]

/-- The contribution of one statement to the `return_types` collection: a
`return <expr>` whose expression has a literal category adds that category. -/
def returnTypesStep (acc : List String) (s : PyStmt) : List String :=
  match s with
  | .ret (some v) =>
    match returnCategory v with
    | some c => addUnique acc c
    | none => acc
  | _ => acc

/-- The `return_types` collected by `generate_function_docstring`: every
`return <expr>` statement anywhere in the function subtree (`ast.walk`),
classified by `returnCategory`; bare `return` contributes nothing. -/
def returnTypes (body : List PyStmt) : List String :=
  (walkStmts body).foldl returnTypesStep []

/-- The parameter list `generate_function_docstring` enumerates in its Args
block: every declared parameter whose name is not `self`. -/
def docstringArgs (args : List String) : List String :=
  args.filter fun a => decide (a ≠ "self")

/-- Function `generate_function_docstring`: header naming the function, an Args block
for the declared parameters other than `self`, and a Returns block listing
the comma-joined collected return-type categories when non-empty. -/
def generate_function_docstring (name : String) (args : List String)
    (body : List PyStmt) : String :=
  let doc := "\"\"\"\n" ++ name ++ " function.\n\n"
  let args2 := docstringArgs args
  let doc := if args2.isEmpty then doc else
    doc ++ "Args:\n" ++
      String.join (args2.map fun a => "    " ++ a ++ ": Description of " ++ a ++ ".\n")
  let rts := returnTypes body
  let doc := if rts.isEmpty then doc else
    doc ++ "\nReturns:\n    " ++ ", ".intercalate rts ++ ": Description of return value.\n"
  doc ++ "\"\"\""

/-- Function `generate_class_docstring`: fixed template naming the class. -/
def generate_class_docstring (name : String) : String :=
  "\"\"\"\n" ++ name ++ " class.\n\nDescription of the " ++ name ++ " class.\n\"\"\""

/-- One iteration of the `add_docstrings` loop over `tree.body`: a function
or class definition without a docstring gets the generated documentation
inserted as the first statement of its body; every other node — and every
already-documented definition — passes through unchanged. -/
def addDocstringsNode : PyStmt → PyStmt
  | .functionDef n args body =>
    if (get_docstring body).isSome then .functionDef n args body
    else .functionDef n args
      (.exprStmt (.str (generate_function_docstring n args body)) :: body)
  | .classDef n body =>
    if (get_docstring body).isSome then .classDef n body
    else .classDef n (.exprStmt (.str (generate_class_docstring n)) :: body)
  | s => s

/-- The tree transformation performed by `add_docstrings` between parsing and
re-serialization: the per-node step applied to each top-level statement. -/
def add_docstrings (m : Module) : Module :=
  m.map addDocstringsNode

/-- Function `add_docstrings` at file level: a read-or-parse failure is caught and
returns `false` with no output written; otherwise the re-serialized
transformed tree is written and `true` is returned. -/
def add_docstrings_file (unparse : Module → String) :
    Except String Module → Bool × String
  | .error _ => (false, "")
  | .ok m => (true, unparse (add_docstrings m))

/-- A statement is a definition the Synthesizer considers: a function or a
class definition. -/
def isDefStmt : PyStmt → Bool
  | .functionDef _ _ _ => true
  | .classDef _ _ => true
  | _ => false

/-- The body statement list of a definition (empty for non-definitions). -/
def defBody : PyStmt → List PyStmt
  | .functionDef _ _ body => body
  | .classDef _ body => body
  | _ => []

/-! ### Review Heuristics Engine (src/code_review.py) -/

/-- The `unused_args` set of `review_code`: declared parameter names minus all
identifiers referenced anywhere in the function subtree.  The source holds
both sides as Python sets; the declared-order list is the deterministic
rendering of the difference set. -/
def unusedArgs (args : List String) (body : List PyStmt) : List String :=
  args.filter fun a => decide (a ∉ usedNames body)

/-- The findings `review_code` appends for one `ast.FunctionDef` node: one
unused-arguments finding when the unused set is non-empty, and one
too-long finding when the direct body statement count exceeds 20. -/
def funcFindings (name : String) (args : List String) (body : List PyStmt) :
    List String :=
  let unused := unusedArgs args body
  (if unused.isEmpty then [] else
    ["Function \x27" ++ name ++ "\x27 has unused arguments: " ++ ", ".intercalate unused])
  ++ (if body.length > 20 then
    ["Function \x27" ++ name ++ "\x27 is too long; consider refactoring."] else [])

/-- The AST-rule part of `review_code`: findings for every function
definition node anywhere in the tree. -/
def ruleComments (m : Module) : List String :=
  (walkStmts m).flatMap fun s =>
    match s with
    | .functionDef n args body => funcFindings n args body
    | _ => []

/-- Function `review_code`.  `input` is the read-and-parse outcome of the file;
`codebert` is the external classifier outcome — `Except.ok flagged` when the
model ran and `flagged` tells whether its confidence in the issue class
exceeded 0.7, `Except.error` when the model call raised.  Any caught
exception yields the single error entry; an empty findings list yields the
single sentinel entry. -/
def review_code (input : Except String Module)
    (codebert : Except String Bool) : List String :=
  match input with
  | .error e => ["Error during code review: " ++ e]
  | .ok tree =>
    match codebert with
    | .error e => ["Error during code review: " ++ e]
    | .ok flagged =>
      let comments := ruleComments tree ++
        (if flagged then
          ["CodeBERT detected potential quality issues; review for best practices."]
        else [])
      if comments.isEmpty then ["No significant issues found."] else comments

/-! ### Bug Heuristics Engine (src/bug_predictor.py) -/

/-- The statement-level detector of `predict_bugs`: a `while` whose test is
the literal constant `True` is flagged, with no inspection of the body. -/
def stmtBug : PyStmt → List String
  | .whileStmt ln (.boolConst true) _ =>
    [s!"Potential infinite loop at line {ln}: \x27while True\x27 without break."]
  | _ => []

/-- The expression-level detectors of `predict_bugs`: a call whose callee is
the bare identifier `eval` or `exec`, and a binary division whose right
operand is the literal zero. -/
def exprBug : PyExpr → List String
  | .call ln (.name f) _ =>
    if f = "eval" || f = "exec" then
      [s!"Use of unsafe function \x27{f}\x27 at line {ln}; consider safer alternatives."]
    else []
  | .binOp ln op _ r =>
    match op, r with
    | .div, .num n => if n = 0 then [s!"Potential division by zero at line {ln}."] else []
    | _, _ => []
  | _ => []

/-- All bug findings of a tree: each walked node contributes the findings of
the detector matching its shape (a node matches at most one detector). -/
def collectBugs (m : Module) : List String :=
  (walkStmts m).flatMap stmtBug ++ (allExprs m).flatMap exprBug

/-- Function `predict_bugs`: a read-or-parse failure is caught and becomes the single
error entry; an empty findings list becomes the single sentinel entry. -/
def predict_bugs (input : Except String Module) : List String :=
  match input with
  | .error e => ["Error during bug prediction: " ++ e]
  | .ok tree =>
    let bugs := collectBugs tree
    if bugs.isEmpty then ["No potential bugs detected."] else bugs

/-! ### Metrics Calculator (src/report_generator.py, calculate_code_metrics) -/

structure Metrics where
  line_count : Nat
  function_count : Nat
  class_count : Nat
  complexity : Nat
  deriving Repr, DecidableEq

/-- Python `str.splitlines` (on newline-separated text): `len(code.splitlines())`
is the number of lines, an unterminated final line counting as a line and an
empty string having none. -/
def py_splitlines (s : String) : List String :=
  if s = "" then []
  else if s.endsWith "\n" then (s.splitOn "\n").dropLast
  else s.splitOn "\n"

/-- The decision-point node classes counted into the complexity metric:
`ast.If`, `ast.For`, `ast.While`, `ast.Try`. -/
def isBranchNode : PyStmt → Bool
  | .ifStmt _ _ _ => true
  | .forStmt _ _ _ => true
  | .whileStmt _ _ _ => true
  | .tryStmt _ _ => true
  | _ => false

/-- Decision points anywhere inside one function definition (the walk of the
function node; the `FunctionDef` node itself is not a decision point). -/
def branchCount (body : List PyStmt) : Nat :=
  ((walkStmts body).filter isBranchNode).length

/-- The contribution of one walked node to the metrics: a function definition
bumps the function count and adds its decision points to the complexity, a
class definition bumps the class count. -/
def metricsStep (acc : Nat × Nat × Nat) (s : PyStmt) : Nat × Nat × Nat :=
  match s with
  | .functionDef _ _ body => (acc.1 + 1, acc.2.1, acc.2.2 + branchCount body)
  | .classDef _ _ => (acc.1, acc.2.1 + 1, acc.2.2)
  | _ => acc

/-- Function `calculate_code_metrics` on a successfully read and parsed file: line
count of the raw text, counts of function and class definition nodes
anywhere in the tree, and the complexity sum over functions plus the
baseline 1. -/
def calculate_code_metrics (code : String) (tree : Module) : Metrics :=
  let st := (walkStmts tree).foldl metricsStep (0, 0, 0)
  { line_count := (py_splitlines code).length
    function_count := st.1
    class_count := st.2.1
    complexity := st.2.2 + 1 }

/-- Function `calculate_code_metrics` at file level: any read or parse failure is
caught, logged and turned into the all-zero aggregate. -/
def calculate_code_metrics_file : Except String (String × Module) → Metrics
  | .error _ => ⟨0, 0, 0, 0⟩
  | .ok (code, tree) => calculate_code_metrics code tree

/-! ### Report Assembler (src/report_generator.py) -/

/-- The per-character replacement table of `escape_latex`. -/
def escapeLatexChar (c : Char) : String :=
  if c = '#' then "\\#"
  else if c = '$' then "\\$"
  else if c = '%' then "\\%"
  else if c = '&' then "\\&"
  else if c = '_' then "\\_"
  else if c = '\x7b' then "\\\x7b"
  else if c = '\x7d' then "\\\x7d"
  else if c = '~' then "\\~\x7b\x7d"
  else if c = '^' then "\\^\x7b\x7d"
  else if c = '\\' then "\\textbackslash\x7b\x7d"
  else if c = '<' then "\\textless\x7b\x7d"
  else if c = '>' then "\\textgreater\x7b\x7d"
  else if c = '|' then "\\textbar\x7b\x7d"
  else String.singleton c

/-- Function `escape_latex`: escape every LaTeX special character of the text. -/
def escape_latex (text : String) : String :=
  String.join (text.data.map escapeLatexChar)

/-- One resolved Python file as the assembler sees it: its base name, its
read-and-parse outcome (raw text paired with the tree on success), and the
outcome of the external classifier run on its text. -/
structure SourceFile where
  name : String
  content : Except String (String × Module)
  codebert : Except String Bool

/-- The tree part of the read-and-parse outcome of a file. -/
def parsedTree (f : SourceFile) : Except String Module :=
  f.content.map Prod.snd

/-- The "code with docstrings" text shown by the fallback report for one
file: the re-read `add_docstrings` output (an empty read degrading to the
no-docstrings note via the `or` fallback) on success, and the explicit
failure note when `add_docstrings` returned false. -/
def docstringContent (unparse : Module → String) (f : SourceFile) : String :=
  match add_docstrings_file unparse (parsedTree f) with
  | (true, out) => if out = "" then "No docstrings generated." else out
  | (false, _) => "Failed to generate docstrings."

/-- The "code with docstrings" text shown by the LaTeX path for one file:
the LaTeX path only logs a warning when `add_docstrings` fails, then reads
the (never written) output file, so a failure degrades to the no-docstrings
note rather than the failure note. -/
def latexDocstringContent (unparse : Module → String) (f : SourceFile) : String :=
  match add_docstrings_file unparse (parsedTree f) with
  | (true, out) => if out = "" then "No docstrings generated." else out
  | (false, _) => "No docstrings generated."

/-- The analytical content of the report section of one file: metrics, documented
source listing, review findings, bug findings. -/
structure Analysis where
  metrics : Metrics
  doc : String
  review : List String
  bugs : List String

/-- The analysis the fallback (text) path computes for one file. -/
def analysisOf (unparse : Module → String) (f : SourceFile) : Analysis :=
  { metrics := calculate_code_metrics_file f.content
    doc := docstringContent unparse f
    review := review_code (parsedTree f) f.codebert
    bugs := predict_bugs (parsedTree f) }

/-- The analysis the primary (LaTeX) path computes for one file. -/
def latexAnalysisOf (unparse : Module → String) (f : SourceFile) : Analysis :=
  { metrics := calculate_code_metrics_file f.content
    doc := latexDocstringContent unparse f
    review := review_code (parsedTree f) f.codebert
    bugs := predict_bugs (parsedTree f) }

/-- A run of `n` copies of a character (Python `c * n`). -/
def repeatChar (c : Char) (n : Nat) : String :=
  String.mk (List.replicate n c)

/-- The text rendering of one file section as a function of the analytical
content of the section alone. -/
def textSectionOfAnalysis (name : String) (a : Analysis) : String :=
  let lc := a.metrics.line_count
  let fc := a.metrics.function_count
  let cc := a.metrics.class_count
  let cx := a.metrics.complexity
  "\nAnalysis of " ++ name ++ "\n" ++ repeatChar '-' 50 ++ "\n"
  ++ "Code Metrics:\n"
  ++ s!"  Lines of Code: {lc}\n"
  ++ s!"  Functions: {fc}\n"
  ++ s!"  Classes: {cc}\n"
  ++ s!"  Cyclomatic Complexity: {cx}\n\n"
  ++ "Code with Docstrings:\n" ++ repeatChar '-' 30 ++ "\n"
  ++ a.doc ++ "\n\n"
  ++ "Code Review Findings:\n"
  ++ (if a.review.isEmpty then "- No significant issues found.\n"
      else "- " ++ "\n- ".intercalate a.review)
  ++ "\n"
  ++ "Bug Predictions:\n"
  ++ (if a.bugs.isEmpty then "- No potential bugs detected.\n"
      else "- " ++ "\n- ".intercalate a.bugs)
  ++ "\n"

/-- The section one file contributes to the fallback text report,
transcribed from `generate_text_fallback`: metrics block, docstring listing, review findings,
bug predictions, each computed by the corresponding engine. -/
def textFileSection (unparse : Module → String) (f : SourceFile) : String :=
  let metrics := calculate_code_metrics_file f.content
  let lc := metrics.line_count
  let fc := metrics.function_count
  let cc := metrics.class_count
  let cx := metrics.complexity
  let docText := docstringContent unparse f
  let review := review_code (parsedTree f) f.codebert
  let bugs := predict_bugs (parsedTree f)
  "\nAnalysis of " ++ f.name ++ "\n" ++ repeatChar '-' 50 ++ "\n"
  ++ "Code Metrics:\n"
  ++ s!"  Lines of Code: {lc}\n"
  ++ s!"  Functions: {fc}\n"
  ++ s!"  Classes: {cc}\n"
  ++ s!"  Cyclomatic Complexity: {cx}\n\n"
  ++ "Code with Docstrings:\n" ++ repeatChar '-' 30 ++ "\n"
  ++ docText ++ "\n\n"
  ++ "Code Review Findings:\n"
  ++ (if review.isEmpty then "- No significant issues found.\n"
      else "- " ++ "\n- ".intercalate review)
  ++ "\n"
  ++ "Bug Predictions:\n"
  ++ (if bugs.isEmpty then "- No potential bugs detected.\n"
      else "- " ++ "\n- ".intercalate bugs)
  ++ "\n"

/-- The whole fallback text report: header line, separator, timestamp, then
one section per resolved file. -/
def textReportContent (unparse : Module → String) (files : List SourceFile)
    (fileName now : String) : String :=
  "Project Report: " ++ fileName ++ "\n" ++ repeatChar '=' 50 ++ "\n"
  ++ "Generated on " ++ now ++ "\n\n"
  ++ String.join (files.map (textFileSection unparse))

/-- Function `generate_text_fallback`: assemble the text report and write it; a failed
write returns `false` with the error note instead of the artifact. -/
def generate_text_fallback (unparse : Module → String) (files : List SourceFile)
    (fileName now : String) (writeOk : Bool) : Bool × String :=
  if writeOk then (true, textReportContent unparse files fileName now)
  else (false, "Failed to write text report.")

/-- Function `generate_latex_preamble`, braces and backslashes as in the source. -/
def generate_latex_preamble (fileName : String) : String :=
  "\n\\documentclass[a4paper,12pt]\x7barticle\x7d\n\\usepackage[utf8]\x7binputenc\x7d\n\\usepackage\x7blistings\x7d\n\\usepackage\x7bxcolor\x7d\n\\usepackage\x7bgeometry\x7d\n\\usepackage\x7btimes\x7d\n\\geometry\x7bmargin=1in\x7d\n\n\\lstset\x7b\n    language=Python,\n    basicstyle=\\ttfamily\\small,\n    keywordstyle=\\color\x7bblue\x7d,\n    stringstyle=\\color\x7bred\x7d,\n    commentstyle=\\color\x7bgreen!60!black\x7d,\n    showstringspaces=false,\n    breaklines=true,\n    frame=single,\n    numbers=left,\n    numberstyle=\\tiny,\n    numbersep=5pt\n\x7d\n\n\\title\x7bSmartSDLC Project Report: "
  ++ escape_latex fileName
  ++ "\x7d\n\\author\x7bSmartSDLC Analysis Tool\x7d\n\\date\x7b\\today\x7d\n\n\\begin\x7bdocument\x7d\n\\maketitle\n\\tableofcontents\n\\newpage\n"

/-- The LaTeX rendering of one file section as a function of the analytical
content of the section alone. -/
def latexSectionOfAnalysis (name : String) (a : Analysis) : String :=
  let lc := a.metrics.line_count
  let fc := a.metrics.function_count
  let cc := a.metrics.class_count
  let cx := a.metrics.complexity
  let reviewText :=
    if a.review.isEmpty then "\\item No significant issues found."
    else "\\item " ++ "\\item ".intercalate (a.review.map escape_latex)
  let bugText :=
    if a.bugs.isEmpty then "\\item No potential bugs detected."
    else "\\item " ++ "\\item ".intercalate (a.bugs.map escape_latex)
  "\\section\x7bAnalysis of " ++ escape_latex name ++ "\x7d\n"
  ++ "\\subsection\x7bCode Metrics\x7d\n"
  ++ "\\begin\x7bdescription\x7d\n"
  ++ s!"\\item[Lines of Code:] {lc}\n"
  ++ s!"\\item[Functions:] {fc}\n"
  ++ s!"\\item[Classes:] {cc}\n"
  ++ s!"\\item[Cyclomatic Complexity:] {cx}\n"
  ++ "\\end\x7bdescription\x7d\n\n"
  ++ "\\subsection\x7bCode with Docstrings\x7d\n"
  ++ "\\begin\x7blstlisting\x7d[language=Python]\n"
  ++ escape_latex a.doc ++ "\n"
  ++ "\\end\x7blstlisting\x7d\n"
  ++ "\\subsection\x7bCode Review Findings\x7d\n"
  ++ "\\begin\x7bitemize\x7d\n" ++ reviewText ++ "\n\\end\x7bitemize\x7d\n"
  ++ "\\subsection\x7bBug Predictions\x7d\n"
  ++ "\\begin\x7bitemize\x7d\n" ++ bugText ++ "\n\\end\x7bitemize\x7d\n"

/-- The section one file contributes to the LaTeX document, transcribed
from `generate_project_report`: each block computed by the corresponding engine,
all inserted literal text escaped. -/
def latexFileSection (unparse : Module → String) (f : SourceFile) : String :=
  let metrics := calculate_code_metrics_file f.content
  let lc := metrics.line_count
  let fc := metrics.function_count
  let cc := metrics.class_count
  let cx := metrics.complexity
  let docText := latexDocstringContent unparse f
  let review := review_code (parsedTree f) f.codebert
  let bugs := predict_bugs (parsedTree f)
  let reviewText :=
    if review.isEmpty then "\\item No significant issues found."
    else "\\item " ++ "\\item ".intercalate (review.map escape_latex)
  let bugText :=
    if bugs.isEmpty then "\\item No potential bugs detected."
    else "\\item " ++ "\\item ".intercalate (bugs.map escape_latex)
  "\\section\x7bAnalysis of " ++ escape_latex f.name ++ "\x7d\n"
  ++ "\\subsection\x7bCode Metrics\x7d\n"
  ++ "\\begin\x7bdescription\x7d\n"
  ++ s!"\\item[Lines of Code:] {lc}\n"
  ++ s!"\\item[Functions:] {fc}\n"
  ++ s!"\\item[Classes:] {cc}\n"
  ++ s!"\\item[Cyclomatic Complexity:] {cx}\n"
  ++ "\\end\x7bdescription\x7d\n\n"
  ++ "\\subsection\x7bCode with Docstrings\x7d\n"
  ++ "\\begin\x7blstlisting\x7d[language=Python]\n"
  ++ escape_latex docText ++ "\n"
  ++ "\\end\x7blstlisting\x7d\n"
  ++ "\\subsection\x7bCode Review Findings\x7d\n"
  ++ "\\begin\x7bitemize\x7d\n" ++ reviewText ++ "\n\\end\x7bitemize\x7d\n"
  ++ "\\subsection\x7bBug Predictions\x7d\n"
  ++ "\\begin\x7bitemize\x7d\n" ++ bugText ++ "\n\\end\x7bitemize\x7d\n"

/-- The whole LaTeX document written before invoking the compiler:
preamble, project overview, one section per file, document end. -/
def latexReportContent (unparse : Module → String) (files : List SourceFile)
    (fileName now : String) : String :=
  generate_latex_preamble fileName
  ++ "\\section\x7bProject Overview\x7d\n"
  ++ "\\textbf\x7bFile Name:\x7d " ++ escape_latex fileName ++ "\\\\[0.2cm]\n"
  ++ "\\textbf\x7bGenerated:\x7d " ++ now ++ "\\\\[0.2cm]\n"
  ++ "\\textbf\x7bDescription:\x7d Analysis of uploaded Python code with docstrings, code review, bug predictions, and metrics.\n\n"
  ++ String.join (files.map (latexFileSection unparse))
  ++ "\\end\x7bdocument\x7d"

/-- The upload handed to `generate_project_report`: a `.py` file, a `.zip`
archive (with validity flag and the `.py` members found on extraction), or
an unsupported extension. -/
inductive UploadInput where
  | pyFile (f : SourceFile)
  | zipFile (valid : Bool) (members : List SourceFile)
  | otherFormat

/-- The input-resolution phase of `generate_project_report`: extension
dispatch, archive expansion, and the emptiness check; an error becomes the
terminal `(False, message, "none")` return. -/
def resolveInput : UploadInput → Except String (List SourceFile)
  | .pyFile f => .ok [f]
  | .zipFile false _ => .error "Invalid or corrupted ZIP file."
  | .zipFile true members =>
    if members.isEmpty then .error "No Python files found in the uploaded ZIP."
    else .ok members
  | .otherFormat => .error "Unsupported file format. Please upload a .py or .zip file."

/-- Outcome of the external `latexmk -pdf` invocation: `completed` with the
exit status and whether the expected PDF exists afterwards; `subprocessError`
for a raised `subprocess.SubprocessError` (the 60-second `TimeoutExpired`
included); `fileNotFound` for a missing compiler binary. -/
inductive CompilerRun where
  | completed (exitCode : Int) (pdfWritten : Bool)
  | subprocessError (msg : String)
  | fileNotFound (msg : String)

/-- The compiler outcomes that send `generate_project_report` into the
fallback branch: nonzero exit status, `SubprocessError` (timeout included)
or a missing binary. -/
def compilerFailed : CompilerRun → Bool
  | .completed code _ => decide (code ≠ 0)
  | .subprocessError _ => true
  | .fileNotFound _ => true

/-- Request-scoped circumstances of one `generate_project_report` call:
temporary-directory creation, the two file writes, an uncaught exception
raised during assembly (if any), and the timestamp text. -/
structure ReportEnv where
  tempDirOk : Bool
  latexWriteOk : Bool
  textWriteOk : Bool
  assemblyFault : Option String
  now : String

/-- Function `generate_project_report`.  Resolution failures are terminal with tag
"none"; an uncaught assembly exception or any failed compiler run falls back
to the text report with tag "txt"; a clean compiler run returns the PDF
artifact (identified here by its path, since its bytes come from the
external compiler) with tag "pdf". -/
def generate_project_report (unparse : Module → String) (input : UploadInput)
    (fileName : String) (env : ReportEnv) (comp : CompilerRun) :
    Bool × String × String :=
  if !env.tempDirOk then (false, "Failed to create temporary directory.", "none")
  else
    match resolveInput input with
    | .error msg => (false, msg, "none")
    | .ok files =>
      match env.assemblyFault with
      | some _ =>
        let fb := generate_text_fallback unparse files fileName env.now env.textWriteOk
        (fb.1, fb.2, "txt")
      | none =>
        if !env.latexWriteOk then (false, "Failed to write LaTeX file.", "none")
        else
          match comp with
          | .completed code pdfWritten =>
            if code ≠ 0 then
              let fb := generate_text_fallback unparse files fileName env.now env.textWriteOk
              (fb.1, fb.2, "txt")
            else if pdfWritten then (true, "project_report.pdf", "pdf")
            else (false, "Failed to generate PDF report.", "none")
          | .subprocessError _ =>
            let fb := generate_text_fallback unparse files fileName env.now env.textWriteOk
            (fb.1, fb.2, "txt")
          | .fileNotFound _ =>
            let fb := generate_text_fallback unparse files fileName env.now env.textWriteOk
            (fb.1, fb.2, "txt")

end SmartSDLC

namespace SmartSDLC

/-! ### Helper lemmas shared by the claim theorems -/

/-- Membership survives the empty-findings sentinel wrapper used by both
engines. -/
theorem mem_sentinelized {l : List String} {s msg : String} (h : msg ∈ l) :
    msg ∈ (if l.isEmpty then [s] else l) := by
  cases l with
  | nil => cases h
  | cons a t => simpa using h

/-- The sentinel wrapper never returns the empty list. -/
theorem sentinelized_ne_nil (l : List String) (s : String) :
    (if l.isEmpty then [s] else l) ≠ [] := by
  cases l <;> simp

theorem mem_addUnique {l : List String} {c x : String} :
    x ∈ addUnique l c ↔ x ∈ l ∨ x = c := by
  by_cases h : c ∈ l
  · simp only [addUnique, if_pos h]
    constructor
    · exact Or.inl
    · rintro (hx | rfl)
      · exact hx
      · exact h
  · simp [addUnique, if_neg h]

theorem nodup_addUnique {l : List String} (h : l.Nodup) (c : String) :
    (addUnique l c).Nodup := by
  by_cases hc : c ∈ l
  · simpa [addUnique, hc] using h
  · simp [addUnique, hc, List.nodup_append, h]

theorem nodup_returnTypesStep {acc : List String} (h : acc.Nodup) (s : PyStmt) :
    (returnTypesStep acc s).Nodup := by
  cases s with
  | ret v =>
    cases v with
    | none => simpa [returnTypesStep] using h
    | some e =>
      simp only [returnTypesStep]
      cases hrc : returnCategory e with
      | none => exact h
      | some c => exact nodup_addUnique h c
  | _ => simpa [returnTypesStep] using h

theorem mem_foldl_returnTypesStep (l : List PyStmt) (acc : List String) (x : String) :
    x ∈ l.foldl returnTypesStep acc ↔
      x ∈ acc ∨ ∃ v, PyStmt.ret (some v) ∈ l ∧ returnCategory v = some x := by
  induction l generalizing acc with
  | nil => simp
  | cons s rest ih =>
    rw [List.foldl_cons, ih]
    cases s with
    | ret v =>
      cases v with
      | none => simp [returnTypesStep]
      | some e =>
        simp only [returnTypesStep]
        cases hrc : returnCategory e with
        | none =>
          simp only [List.mem_cons]
          constructor
          · rintro (hx | ⟨v, hv, hcat⟩)
            · exact Or.inl hx
            · exact Or.inr ⟨v, Or.inr hv, hcat⟩
          · rintro (hx | ⟨v, hv | hv, hcat⟩)
            · exact Or.inl hx
            · cases hv; simp [hrc] at hcat
            · exact Or.inr ⟨v, hv, hcat⟩
        | some c =>
          simp only [mem_addUnique, List.mem_cons, or_assoc]
          constructor
          · rintro (hx | rfl | ⟨v, hv, hcat⟩)
            · exact Or.inl hx
            · exact Or.inr ⟨e, Or.inl rfl, hrc⟩
            · exact Or.inr ⟨v, Or.inr hv, hcat⟩
          · rintro (hx | ⟨v, hv | hv, hcat⟩)
            · exact Or.inl hx
            · cases hv
              rw [hrc] at hcat
              exact Or.inr (Or.inl (Option.some_injective _ hcat).symm)
            · exact Or.inr (Or.inr ⟨v, hv, hcat⟩)
    | _ => simp [returnTypesStep]


/-- The per-node docstring-insertion step is idempotent: after one pass the
definition carries a docstring, so a second pass leaves it unchanged. -/
theorem get_docstring_cons (d : String) (rest : List PyStmt) :
    get_docstring (.exprStmt (.str d) :: rest) = some d := rfl

theorem addDocstringsNode_idem (s : PyStmt) :
    addDocstringsNode (addDocstringsNode s) = addDocstringsNode s := by
  cases s with
  | functionDef n args body =>
    cases hgd : get_docstring body with
    | some d => simp [addDocstringsNode, hgd]
    | none => simp [addDocstringsNode, hgd, get_docstring_cons]
  | classDef n body =>
    cases hgd : get_docstring body with
    | some d => simp [addDocstringsNode, hgd]
    | none => simp [addDocstringsNode, hgd, get_docstring_cons]
  | _ => rfl

/-- C9: the Docstring Synthesizer is idempotent — running `add_docstrings`
a second time on its own output makes no further change, because every
definition in the output of the first run carries documentation and documented
definitions are skipped. -/
theorem c9_add_docstrings_idempotent (m : Module) :
    add_docstrings (add_docstrings m) = add_docstrings m := by
  simp only [add_docstrings, List.map_map]
  exact List.map_congr_left fun s _ => addDocstringsNode_idem s

/-- C1: on a module none of whose top-level definitions carries
documentation, the Docstring Synthesizer leaves every top-level definition
with a documentation block as the first statement of its body, and (in
general) any definition that already carries documentation passes through
the synthesizer unchanged. -/
theorem c1_synthesizer_documents (m : Module)
    (_h : ∀ s ∈ m, isDefStmt s = true → get_docstring (defBody s) = none) :
    (∀ s ∈ add_docstrings m, isDefStmt s = true →
      (get_docstring (defBody s)).isSome = true)
    ∧ (∀ s ∈ m, isDefStmt s = true → (get_docstring (defBody s)).isSome = true →
        addDocstringsNode s = s) := by
  refine ⟨?_, ?_⟩
  · intro s hs hdef
    simp only [add_docstrings, List.mem_map] at hs
    obtain ⟨t, ht, rfl⟩ := hs
    cases t with
    | functionDef n args body =>
      cases hgd : get_docstring body with
      | some d => simp [addDocstringsNode, hgd, defBody]
      | none => simp [addDocstringsNode, hgd, defBody, get_docstring_cons]
    | classDef n body =>
      cases hgd : get_docstring body with
      | some d => simp [addDocstringsNode, hgd, defBody]
      | none => simp [addDocstringsNode, hgd, defBody, get_docstring_cons]
    | _ => simp [addDocstringsNode, isDefStmt] at hdef
  · intro s hs hdef hdoc
    cases s with
    | functionDef n args body =>
      simp only [defBody] at hdoc
      simp [addDocstringsNode, hdoc]
    | classDef n body =>
      simp only [defBody] at hdoc
      simp [addDocstringsNode, hdoc]
    | _ => rfl

/-- Witness for C1 at a concrete undocumented module: the transformed
definition carries a docstring as its first body statement. -/
theorem c1_synthesizer_documents_witness :
    (get_docstring (defBody (addDocstringsNode
        (PyStmt.functionDef "f" [] [PyStmt.passStmt])))).isSome = true :=
  (c1_synthesizer_documents [PyStmt.functionDef "f" [] [PyStmt.passStmt]]
      (by simp [isDefStmt, defBody, get_docstring])).1
    (addDocstringsNode (PyStmt.functionDef "f" [] [PyStmt.passStmt]))
    (by simp [add_docstrings]) rfl

/-- C2: the Review Heuristics Engine and the Bug Heuristics Engine always
return a non-empty list of strings: a caught exception (unreadable or
unparseable input, classifier failure) becomes the single error entry, and
an empty findings list becomes the single sentinel entry. -/
theorem c2_engines_never_raise (input : Except String Module)
    (codebert : Except String Bool) :
    review_code input codebert ≠ []
    ∧ predict_bugs input ≠ []
    ∧ (∀ e, review_code (.error e) codebert = ["Error during code review: " ++ e])
    ∧ (∀ e, predict_bugs (.error e) = ["Error during bug prediction: " ++ e])
    ∧ (∀ m, ruleComments m = [] →
        review_code (.ok m) (.ok false) = ["No significant issues found."])
    ∧ (∀ m, collectBugs m = [] →
        predict_bugs (.ok m) = ["No potential bugs detected."]) := by
  refine ⟨?_, ?_, fun e => rfl, fun e => rfl, ?_, ?_⟩
  · cases input with
    | error e => simp [review_code]
    | ok tree =>
      cases codebert with
      | error e => simp [review_code]
      | ok flagged => exact sentinelized_ne_nil _ _
  · cases input with
    | error e => simp [predict_bugs]
    | ok tree => exact sentinelized_ne_nil _ _
  · intro m hm
    simp [review_code, hm]
  · intro m hm
    simp [predict_bugs, hm]

/-- Witness for C2 at concrete inputs. -/
theorem c2_engines_never_raise_witness :
    review_code (.ok []) (.ok false) = ["No significant issues found."]
    ∧ predict_bugs (.error "io failure") = ["Error during bug prediction: io failure"] :=
  ⟨(c2_engines_never_raise (.ok []) (.ok false)).2.2.2.2.1 [] rfl,
   (c2_engines_never_raise (.error "io failure") (.ok false)).2.2.2.1 "io failure"⟩


/-- C6: every `while` loop whose condition is the literal constant `True`
yields an infinite-loop finding carrying the line number of the loop, whatever
the loop body contains (a `break` included). -/
theorem c6_while_true_finding (m : Module) (ln : Nat) (body : List PyStmt)
    (h : PyStmt.whileStmt ln (.boolConst true) body ∈ walkStmts m) :
    s!"Potential infinite loop at line {ln}: \x27while True\x27 without break."
      ∈ predict_bugs (.ok m) := by
  have hb : s!"Potential infinite loop at line {ln}: \x27while True\x27 without break."
      ∈ collectBugs m := by
    unfold collectBugs
    exact List.mem_append_left _
      (List.mem_flatMap.mpr ⟨_, h, by simp [stmtBug]⟩)
  exact mem_sentinelized hb

/-- Witness for C6: the loop body contains a `break`, the finding is still
emitted. -/
theorem c6_while_true_finding_witness :
    s!"Potential infinite loop at line 3: \x27while True\x27 without break."
      ∈ predict_bugs (.ok [.whileStmt 3 (.boolConst true) [.breakStmt]]) :=
  c6_while_true_finding [.whileStmt 3 (.boolConst true) [.breakStmt]] 3 [.breakStmt]
    (by simp [walkStmts, walkStmt])

/-- C7: a division whose right operand is the literal zero yields a
zero-division finding at its line, and on a module holding exactly `a / 0`
that finding is the only one; a division by a variable yields none. -/
theorem c7_literal_zero_division (m : Module) (ln : Nat) (l : PyExpr) :
    (PyExpr.binOp ln .div l (.num 0) ∈ allExprs m →
      s!"Potential division by zero at line {ln}." ∈ predict_bugs (.ok m))
    ∧ predict_bugs (.ok [.exprStmt (.binOp ln .div (.name "a") (.num 0))])
        = [s!"Potential division by zero at line {ln}."]
    ∧ predict_bugs (.ok [.exprStmt (.binOp ln .div (.name "a") (.name "b"))])
        = ["No potential bugs detected."] := by
  refine ⟨?_, rfl, rfl⟩
  intro h
  have hb : s!"Potential division by zero at line {ln}." ∈ collectBugs m := by
    unfold collectBugs
    exact List.mem_append_right _
      (List.mem_flatMap.mpr ⟨_, h, by simp [exprBug]⟩)
  exact mem_sentinelized hb

/-- Witness for C7 at a concrete module. -/
theorem c7_literal_zero_division_witness :
    s!"Potential division by zero at line 7."
      ∈ predict_bugs (.ok [.exprStmt (.binOp 7 .div (.name "x") (.num 0))]) :=
  (c7_literal_zero_division [.exprStmt (.binOp 7 .div (.name "x") (.num 0))] 7 (.name "x")).1
    (by simp [allExprs, walkStmts, walkStmt, stmtExprs, walkExprList, walkExpr])

/-- C5: the unused set is the declared parameter set minus every identifier
referenced anywhere in the function subtree, and on `def f(a, b)` with only
`a` referenced the engine emits exactly the one finding naming the function
and listing exactly `b`. -/
theorem c5_unused_parameter_rule (n : String) (args : List String)
    (body : List PyStmt) (p : String) :
    (p ∈ unusedArgs args body ↔ p ∈ args ∧ p ∉ usedNames body)
    ∧ review_code (.ok [.functionDef n ["a", "b"] [.exprStmt (.name "a")]]) (.ok false)
        = ["Function \x27" ++ n ++ "\x27 has unused arguments: " ++ "b"] := by
  constructor
  · simp [unusedArgs]
  · rfl

/-- Witness for C5 (the general conjunct at a concrete instance). -/
theorem c5_unused_parameter_rule_witness :
    "b" ∈ unusedArgs ["a", "b"] [.exprStmt (.name "a")] :=
  (c5_unused_parameter_rule "f" ["a", "b"] [.exprStmt (.name "a")] "b").1.mpr
    ⟨by simp, by simp [usedNames, allExprs, walkStmts, walkStmt, stmtExprs,
      walkExprList, walkExpr]⟩

/-- C10: the unused-parameter check does not exclude the receiver parameter:
a function whose parameters include `self` and whose body never references
`self` gets `self` listed among its unused arguments, while the Docstring
Synthesizer drops `self` from its Args enumeration. -/
theorem c10_receiver_not_excluded (n : String) (args : List String)
    (body : List PyStmt) (hself : "self" ∈ args)
    (hunused : "self" ∉ usedNames body) :
    "self" ∈ unusedArgs args body
    ∧ "self" ∉ docstringArgs args
    ∧ ("Function \x27" ++ n ++ "\x27 has unused arguments: "
        ++ ", ".intercalate (unusedArgs args body))
      ∈ review_code (.ok [.functionDef n args body]) (.ok false) := by
  have hmem : "self" ∈ unusedArgs args body := by
    simp only [unusedArgs, List.mem_filter, decide_eq_true_eq]
    exact ⟨hself, hunused⟩
  refine ⟨hmem, by simp [docstringArgs], ?_⟩
  have hne : (unusedArgs args body).isEmpty = false := by
    cases hu : unusedArgs args body with
    | nil => rw [hu] at hmem; cases hmem
    | cons a t => rfl
  have hfind : ("Function \x27" ++ n ++ "\x27 has unused arguments: "
      ++ ", ".intercalate (unusedArgs args body)) ∈ funcFindings n args body := by
    simp [funcFindings, hne]
  have hrule : ("Function \x27" ++ n ++ "\x27 has unused arguments: "
      ++ ", ".intercalate (unusedArgs args body))
      ∈ ruleComments [.functionDef n args body] := by
    unfold ruleComments
    simp only [walkStmts, walkStmt, List.append_nil]
    exact List.mem_flatMap.mpr ⟨.functionDef n args body, by simp, hfind⟩
  exact mem_sentinelized (List.mem_append_left _ hrule)

/-- Witness for C10 at a concrete method with an unreferenced `self`. -/
theorem c10_receiver_not_excluded_witness :
    "self" ∈ unusedArgs ["self", "x"] [.exprStmt (.name "x")]
    ∧ "self" ∉ docstringArgs ["self", "x"] :=
  ⟨(c10_receiver_not_excluded "area" ["self", "x"] [.exprStmt (.name "x")]
      (by simp) (by decide)).1,
   (c10_receiver_not_excluded "area" ["self", "x"] [.exprStmt (.name "x")]
      (by simp) (by decide)).2.1⟩


/-- C4 counterexample: a function returning a string literal gets the
category token "str" written into its Returns section, and "str" is not
among {number, string, boolean, list}. -/
theorem c4_category_token_counterexample :
    returnTypes [PyStmt.ret (some (.str "x"))] = ["str"]
    ∧ "str" ∉ (["number", "string", "boolean", "list"] : List String) :=
  ⟨rfl, by decide⟩

theorem nodup_foldl_returnTypesStep (l : List PyStmt) (acc : List String)
    (h : acc.Nodup) : (l.foldl returnTypesStep acc).Nodup := by
  induction l generalizing acc with
  | nil => simpa using h
  | cons s rest ih =>
    rw [List.foldl_cons]
    exact ih _ (nodup_returnTypesStep h s)

/-- C4 (amended: the category tokens the code writes are "number", "str",
"bool", "list"): a category is collected exactly when some `return <expr>`
anywhere in the function subtree returns a literal of that kind; the
collected list is duplicate-free (comma-joined into the Returns section);
and every collected token is one of the four. -/
theorem c4_return_type_categories (body : List PyStmt) (t : String) :
    (t ∈ returnTypes body ↔
      ∃ v, PyStmt.ret (some v) ∈ walkStmts body ∧ returnCategory v = some t)
    ∧ (returnTypes body).Nodup
    ∧ (t ∈ returnTypes body →
        t ∈ (["number", "str", "bool", "list"] : List String)) := by
  refine ⟨?_, ?_, ?_⟩
  · simpa using mem_foldl_returnTypesStep (walkStmts body) [] t
  · exact nodup_foldl_returnTypesStep (walkStmts body) [] (by simp)
  · intro ht
    obtain ⟨v, -, hc⟩ :=
      (by simpa using mem_foldl_returnTypesStep (walkStmts body) [] t :
        t ∈ returnTypes body ↔ _).mp ht
    cases v <;> simp_all [returnCategory]

/-- Witness for the amended statement of C4. -/
theorem c4_return_type_categories_witness :
    "number" ∈ returnTypes [PyStmt.ret (some (.num 1))]
    ∧ "number" ∈ (["number", "str", "bool", "list"] : List String) := by
  have h := (c4_return_type_categories [PyStmt.ret (some (.num 1))] "number").1.mpr
    ⟨.num 1, by simp [walkStmts, walkStmt], rfl⟩
  exact ⟨h, (c4_return_type_categories [PyStmt.ret (some (.num 1))] "number").2.2 h⟩

theorem foldl_metricsStep_no_defs (l : List PyStmt)
    (h : ∀ s ∈ l, isDefStmt s = false) (acc : Nat × Nat × Nat) :
    l.foldl metricsStep acc = acc := by
  induction l generalizing acc with
  | nil => rfl
  | cons s rest ih =>
    rw [List.foldl_cons]
    have hstep : metricsStep acc s = acc := by
      have hs := h s (by simp)
      cases s <;> simp_all [isDefStmt, metricsStep]
    rw [hstep]
    exact ih (fun t ht => h t (by simp [ht])) acc

/-- C8: on a parseable file containing no function and no class definition,
the Metrics Calculator returns the actual line count of the file, zero function
and class counts, and complexity exactly 1 (the baseline path). -/
theorem c8_metrics_function_free (code : String) (m : Module)
    (h : ∀ s ∈ walkStmts m, isDefStmt s = false) :
    calculate_code_metrics code m =
      { line_count := (py_splitlines code).length
        function_count := 0
        class_count := 0
        complexity := 1 } := by
  unfold calculate_code_metrics
  rw [foldl_metricsStep_no_defs _ h]

/-- Witness for C8 on the empty file. -/
theorem c8_metrics_function_free_witness :
    calculate_code_metrics "" [] =
      { line_count := 0, function_count := 0, class_count := 0, complexity := 1 } := by
  have h := c8_metrics_function_free "" [] (by simp [walkStmts])
  simpa [py_splitlines] using h


/-- C3: whenever primary rendering fails — nonzero compiler exit status,
missing compiler binary, compiler timeout (a `SubprocessError`), or an
uncaught exception during assembly — `generate_project_report` returns the
fallback text artifact with format tag "txt"; and the text artifact renders
the same analytical content as the LaTeX document: the per-file sections of
both rendering paths are renderings of the per-file analyses, which agree on metrics,
review findings and bug findings (and on the documented-source listing
whenever the file parsed). -/
theorem c3_fallback_rendering (unparse : Module → String) (input : UploadInput)
    (fileName : String) (env : ReportEnv) (comp : CompilerRun)
    (files : List SourceFile)
    (hres : resolveInput input = .ok files)
    (htmp : env.tempDirOk = true)
    (htxt : env.textWriteOk = true)
    (hfail : env.assemblyFault.isSome = true
      ∨ (env.assemblyFault = none ∧ env.latexWriteOk = true
          ∧ compilerFailed comp = true)) :
    generate_project_report unparse input fileName env comp
      = (true, textReportContent unparse files fileName env.now, "txt")
    ∧ ∀ f ∈ files,
        textFileSection unparse f
            = textSectionOfAnalysis f.name (analysisOf unparse f)
        ∧ latexFileSection unparse f
            = latexSectionOfAnalysis f.name (latexAnalysisOf unparse f)
        ∧ (latexAnalysisOf unparse f).metrics = (analysisOf unparse f).metrics
        ∧ (latexAnalysisOf unparse f).review = (analysisOf unparse f).review
        ∧ (latexAnalysisOf unparse f).bugs = (analysisOf unparse f).bugs
        ∧ (∀ mt, parsedTree f = .ok mt →
            (latexAnalysisOf unparse f).doc = (analysisOf unparse f).doc) := by
  constructor
  · unfold generate_project_report
    rw [htmp, hres]
    rcases hfail with hfault | ⟨hnone, hlatex, hcomp⟩
    · obtain ⟨e, he⟩ := Option.isSome_iff_exists.mp hfault
      rw [he]
      simp [generate_text_fallback, htxt]
    · rw [hnone, hlatex]
      cases comp with
      | completed code pdfWritten =>
        have hcode : code ≠ 0 := by
          simpa [compilerFailed] using hcomp
        simp [hcode, generate_text_fallback, htxt]
      | subprocessError msg => simp [generate_text_fallback, htxt]
      | fileNotFound msg => simp [generate_text_fallback, htxt]
  · intro f hf
    refine ⟨rfl, rfl, rfl, rfl, rfl, ?_⟩
    intro mt hmt
    simp [latexAnalysisOf, analysisOf, latexDocstringContent, docstringContent,
      hmt, add_docstrings_file]

/-- Witness for C3: a single-file upload with a missing compiler binary. -/
theorem c3_fallback_rendering_witness :
    generate_project_report (fun _ => "")
        (.pyFile ⟨"a.py", .ok ("", ([] : Module)), .ok false⟩) "a.py"
        ⟨true, true, true, none, "2025-01-01 00:00:00"⟩ (.fileNotFound "latexmk")
      = (true, textReportContent (fun _ => "")
          [⟨"a.py", .ok ("", ([] : Module)), .ok false⟩] "a.py" "2025-01-01 00:00:00",
        "txt") :=
  (c3_fallback_rendering (fun _ => "")
    (.pyFile ⟨"a.py", .ok ("", ([] : Module)), .ok false⟩) "a.py"
    ⟨true, true, true, none, "2025-01-01 00:00:00"⟩ (.fileNotFound "latexmk")
    [⟨"a.py", .ok ("", ([] : Module)), .ok false⟩]
    rfl rfl rfl (Or.inr ⟨rfl, rfl, rfl⟩)).1

end SmartSDLC